import Mathlib

/-!
Verification of `src/alertlib/alerta.py` (the Alerta mixin of alertlib).

The module is embedded shallowly: the static classification tables become
association lists, `json.dumps` becomes a character-list serializer that
mirrors Python's default separators and `ensure_ascii=False` escaping, the
collaborators provided by the base framework (`_passed_rate_limit`,
`self.severity`, `_get_summary`, `_in_test_mode`, `base.secret`, the HTTP
response) become fields of an explicit context record, and a Python
`KeyError` raised by an unguarded dict lookup becomes `Except.error`.
Observable behaviour (log lines, attempted network posts) is collected in
an `Effects` record.
-/

/-- JSON values in the fragment `json.dumps` is applied to by this module. -/
inductive JVal where
  | str (s : String)
  | num (n : Nat)
  | arr (elems : List JVal)
  | obj (members : List (String × JVal))
deriving Repr

/-- Lowercase hex digit character, as used by Python json for \uXXXX escapes. -/
def hexDigitChar (n : Nat) : Char :=
  if n < 10 then Char.ofNat (48 + n) else Char.ofNat (87 + n)

/-- Escape of one character exactly as Python `json.dumps` with
`ensure_ascii=False` performs it: quote, backslash and the named control
characters get two-character escapes, the remaining control characters
below 0x20 get `\u00XX`, everything else is emitted literally. -/
def escapeChar (c : Char) : List Char :=
  if c = '"' then ['\\', '"']
  else if c = '\\' then ['\\', '\\']
  else if c = '\n' then ['\\', 'n']
  else if c = '\t' then ['\\', 't']
  else if c = '\r' then ['\\', 'r']
  else if c = '\x08' then ['\\', 'b']
  else if c = '\x0c' then ['\\', 'f']
  else if c.toNat < 32 then
    ['\\', 'u', '0', '0', hexDigitChar (c.toNat / 16), hexDigitChar (c.toNat % 16)]
  else [c]

/-- Escape a whole string body. -/
def escapeString (l : List Char) : List Char := (l.map escapeChar).flatten

/-- Serialization of a JSON string literal. -/
def dumpsString (s : String) : List Char := '"' :: (escapeString s.data ++ ['"'])

/-- Decimal digit character. -/
def digitChar (d : Nat) : Char := Char.ofNat (48 + d)

/-- Decimal digit characters of a natural number, most significant first. -/
def natToDigits (n : Nat) : List Char :=
  if n < 10 then [digitChar n] else natToDigits (n / 10) ++ [digitChar (n % 10)]
decreasing_by exact Nat.div_lt_self (by omega) (by omega)

mutual
/-- Serialization mirroring `json.dumps(payload, ensure_ascii=False)` with
Python's default separators `", "` and `": "`. -/
def dumpsV : JVal → List Char
  | .str s => dumpsString s
  | .num n => natToDigits n
  | .arr l => '[' :: (dumpsElems l ++ [']'])
  | .obj l => '\x7b' :: (dumpsMembers l ++ ['\x7d'])

/-- Serialization of array elements, separated by `", "`. -/
def dumpsElems : List JVal → List Char
  | [] => []
  | [v] => dumpsV v
  | v :: vs => dumpsV v ++ ',' :: ' ' :: dumpsElems vs

/-- Serialization of object members, `": "` after keys, `", "` between members. -/
def dumpsMembers : List (String × JVal) → List Char
  | [] => []
  | [(k, v)] => dumpsString k ++ ':' :: ' ' :: dumpsV v
  | (k, v) :: ms => dumpsString k ++ ':' :: ' ' :: dumpsV v ++ ',' :: ' ' :: dumpsMembers ms
end

/-! Static configuration of alerta.py: the environment, service and group
constants and the two lookup tables. -/

def ENV_PROD : String := "Production"
def ENV_DEV : String := "Development"
def SERVICE_KA : String := "Khanacademy.org"
def SERVICE_DEPLOY : String := "Deployment"
def SERVICE_WEBSERVER : String := "Internal Webserver"
def SERVICE_INTERNAL_SERVICES : String := "Internal Services"
def SERVICE_YOUTUBE_EXPORT : String := "Youtube Export"
def SERVICE_KHANALYTICS : String := "Khanalytics"
def SERVICE_KA_SANDBOX : String := "Sandbox"
def SERVICE_CACHING_PROXY : String := "Caching Proxy"
def SERVICE_DOMAIN_REDIRECT : String := "Domain Redirect"
def SERVICE_PRODUCTION_RPC_SERVERS : String := "Production RPC Servers"
def SERVICE_PHABRICATOR : String := "Phabricator"
def SERVICE_UNKNOWN : String := "Unknown"
def SERVICE_TEST : String := "Test"
def GROUP_WEB : String := "web"
def GROUP_MOBILE : String := "mobile"
def GROUP_TOOLS : String := "tools"
def GROUP_TEST : String := "test"

/-- Value type of `MAP_RESOURCE_TO_ENV_SERVICE_AND_GROUP` entries. -/
structure ResourceClassifiers where
  env : String
  service : List String
  group : String
deriving Repr, DecidableEq

/-- Static resource classification table of alerta.py, lines 59-117, in
source order; entry keys are pairwise distinct so association-list lookup
coincides with Python dict lookup. -/
def MAP_RESOURCE_TO_ENV_SERVICE_AND_GROUP : List (String × ResourceClassifiers) :=
  [("webapp", ⟨ENV_PROD, [SERVICE_KA], GROUP_WEB⟩),
   ("mobile", ⟨ENV_PROD, [SERVICE_KA], GROUP_MOBILE⟩),
   ("jenkins", ⟨ENV_DEV, [SERVICE_DEPLOY], GROUP_TOOLS⟩),
   ("toby", ⟨ENV_PROD, [SERVICE_WEBSERVER], GROUP_TOOLS⟩),
   ("youtube-export", ⟨ENV_PROD, [SERVICE_YOUTUBE_EXPORT], GROUP_TOOLS⟩),
   ("internal-services", ⟨ENV_PROD, [SERVICE_INTERNAL_SERVICES], GROUP_TOOLS⟩),
   ("khanalytics", ⟨ENV_PROD, [SERVICE_KHANALYTICS], GROUP_TOOLS⟩),
   ("sandbox", ⟨ENV_PROD, [SERVICE_KA_SANDBOX], GROUP_WEB⟩),
   ("caching-proxy", ⟨ENV_PROD, [SERVICE_CACHING_PROXY], GROUP_TOOLS⟩),
   ("domain-redirect", ⟨ENV_PROD, [SERVICE_DOMAIN_REDIRECT], GROUP_TOOLS⟩),
   ("production-rpc-servers", ⟨ENV_PROD, [SERVICE_PRODUCTION_RPC_SERVERS], GROUP_TOOLS⟩),
   ("phabricator", ⟨ENV_DEV, [SERVICE_PHABRICATOR], GROUP_TOOLS⟩),
   ("unknown-ec2-instance", ⟨ENV_DEV, [SERVICE_UNKNOWN], GROUP_TOOLS⟩),
   ("test", ⟨ENV_DEV, [SERVICE_TEST], GROUP_TEST⟩)]

/-- Severity table of alerta.py, lines 119-126, keyed by the numeric
values of the Python logging constants: CRITICAL=50, ERROR=40, WARNING=30,
INFO=20, DEBUG=10, NOTSET=0. -/
def SEVERITY_TO_ALERTA_FORMAT : List (Nat × String) :=
  [(50, "critical"),
   (40, "major"),
   (30, "warning"),
   (20, "informational"),
   (10, "debug"),
   (0, "unknown")]

/-- Model of Python `str.capitalize()` for the ASCII strings this module
feeds it: first character uppercased, the rest lowercased. -/
def pyCapitalize (s : String) : String :=
  match s.data with
  | [] => ""
  | c :: cs => String.mk (c.toUpper :: cs.map Char.toLower)

/-! Observable effects and the collaborator context. -/

/-- Log level of an emitted log line. -/
inductive LogLevel where
  | info
  | warning
  | error
deriving Repr, DecidableEq

/-- Observable effects of one call: emitted log lines in order, and the
payloads for which an HTTP POST to the Alerta endpoint was attempted. -/
structure Effects where
  logs : List (LogLevel × String)
  posts : List String
deriving Repr, DecidableEq

/-- Outcome of the underlying `urlopen` call: either the request itself
raised (carrying the exception text), or it returned a response with a
status code and a body. -/
inductive NetResult where
  | err (detail : String)
  | ok (code : Nat) (body : String)
deriving Repr, DecidableEq

/-- Python exceptions that can escape this module: `KeyError` from the two
unguarded dict lookups, with a string key or an integer key. -/
inductive PyError where
  | keyErrorStr (key : String)
  | keyErrorNat (key : Nat)
deriving Repr, DecidableEq

/-- Collaborators of the mixin, fixed for the duration of one call:
the rate-limiter decision for the category passed (always `'aggregator'`
here), `self.severity`, `self._get_summary()`, `self._in_test_mode()`,
`base.secret('alerta_api_key')` (none models a missing secret), and the
behaviour of the network on the one request this call may issue. -/
structure Ctx where
  passedRateLimit : Bool
  severity : Nat
  summary : String
  inTestMode : Bool
  apiKey : Option String
  net : NetResult
deriving Repr, DecidableEq

/-- Python falsiness of `base.secret('alerta_api_key')`: missing or empty. -/
def secretAbsent : Option String → Bool
  | none => true
  | some s => s.isEmpty

/-- Model of `_make_alerta_api_call` (alerta.py lines 129-139): issue the
POST; if the response code is not 201 or 202, raise `ValueError(res.read())`.
An `Except.error` carries the text of the raised exception. -/
def make_alerta_api_call (net : NetResult) : Except String Unit :=
  match net with
  | .err detail => .error detail
  | .ok code body => if code ∈ [201, 202] then .ok () else .error body

/-- Model of `_post_to_alerta` (alerta.py lines 142-154): if the API key is
absent, log a warning containing the payload and return without any network
call; otherwise attempt the call, catching every exception and logging it
as an error together with the payload. -/
def post_to_alerta (apiKey : Option String) (net : NetResult) (payload_json : String) : Effects :=
  if secretAbsent apiKey then
    ⟨[(.warning, "Not sending to Alerta (no API key found): " ++ payload_json)], []⟩
  else
    match make_alerta_api_call net with
    | .ok _ => ⟨[], [payload_json]⟩
    | .error e => ⟨[(.error, "Failed sending " ++ payload_json ++ " to Alerta: " ++ e)], [payload_json]⟩

/-- Payload dict of alerta.py lines 212-220, in source insertion order. -/
def basePayload (resource event environment severity : String) (service : List String)
    (group text : String) (attributes : List (String × JVal)) : List (String × JVal) :=
  [("resource", .str resource),
   ("event", .str event),
   ("environment", .str environment),
   ("severity", .str severity),
   ("service", .arr (service.map .str)),
   ("group", .str group),
   ("text", .str text),
   ("attributes", .obj attributes)]

/-- Model of the payload-construction part of `send_to_alerta`
(alerta.py lines 201-222): the two unguarded dict lookups (resource
classification and severity), the `capitalize()` of the environment, the
resolve override to `"cleared"`, and the assembly of the payload dict in
insertion order, with `timeout` appended only when truthy. -/
def build_alert_payload (ctx : Ctx) (initiative resource event : String)
    (resolve : Bool) (timeout : Option Nat) : Except PyError (List (String × JVal)) :=
  match List.lookup resource MAP_RESOURCE_TO_ENV_SERVICE_AND_GROUP with
  | none => .error (.keyErrorStr resource)
  | some resource_classifiers =>
    let environment := pyCapitalize resource_classifiers.env
    let service := resource_classifiers.service
    let group := resource_classifiers.group
    match List.lookup ctx.severity SEVERITY_TO_ALERTA_FORMAT with
    | none => .error (.keyErrorNat ctx.severity)
    | some sevMapped =>
      let severity := if resolve then "cleared" else sevMapped
      let text := ctx.summary
      let attributes : List (String × JVal) := [("initiative", .str initiative)]
      let payload : List (String × JVal) :=
        basePayload resource event environment severity service group text attributes
      match timeout with
      | some t => if t ≠ 0 then .ok (payload ++ [("timeout", .num t)]) else .ok payload
      | none => .ok payload

/-- Model of `Mixin.send_to_alerta` (alerta.py lines 160-232). A normal
return (`return self`) is `Except.ok` carrying the observable effects; an
escaping `KeyError` is `Except.error`. -/
def send_to_alerta (ctx : Ctx) (initiative : String) (resource : Option String)
    (event : Option String) (resolve : Bool) (timeout : Option Nat) : Except PyError Effects :=
  if !ctx.passedRateLimit then .ok ⟨[], []⟩
  else
    match resource with
    | none => .ok ⟨[(.error, "Resource must be provided. Failed to send to aggregator.")], []⟩
    | some r =>
      match event with
      | none => .ok ⟨[(.error, "Event name must be provided. Failed to send to aggregator.")], []⟩
      | some ev =>
        match build_alert_payload ctx initiative r ev resolve timeout with
        | .error e => .error e
        | .ok payload =>
          let payload_json := String.mk (dumpsV (.obj payload))
          if ctx.inTestMode then
            .ok ⟨[(.info, "alertlib: would send to aggregator: " ++ payload_json)], []⟩
          else
            .ok (post_to_alerta ctx.apiKey ctx.net payload_json)

/-! Parser for the canonical serialization emitted by `dumpsV`: the
`json.loads` side of the round-trip property, restricted to the grammar
fragment `dumpsV` produces (strings with escapes, natural numerals,
arrays and objects with Python's default separators). -/

/-- Value of a hex digit character, or none. -/
def parseHexDigit (c : Char) : Option Nat :=
  if 48 ≤ c.toNat ∧ c.toNat ≤ 57 then some (c.toNat - 48)
  else if 97 ≤ c.toNat ∧ c.toNat ≤ 102 then some (c.toNat - 87)
  else if 65 ≤ c.toNat ∧ c.toNat ≤ 70 then some (c.toNat - 55)
  else none

/-- Decoded character of a two-character escape sequence. -/
def decodeEscape (e : Char) : Option Char :=
  if e = '"' then some '"'
  else if e = '\\' then some '\\'
  else if e = '/' then some '/'
  else if e = 'n' then some '\n'
  else if e = 't' then some '\t'
  else if e = 'r' then some '\r'
  else if e = 'b' then some '\x08'
  else if e = 'f' then some '\x0c'
  else none

/-- Parse the body of a string literal up to and including the closing
quote, returning the decoded characters and the remaining input. -/
def parseStringBody : List Char → Option (List Char × List Char)
  | [] => none
  | c :: rest =>
    if c = '"' then some ([], rest)
    else if c = '\\' then
      match rest with
      | [] => none
      | e :: rest2 =>
        if e = 'u' then
          match rest2 with
          | h1 :: h2 :: h3 :: h4 :: rest3 =>
            match parseHexDigit h1, parseHexDigit h2, parseHexDigit h3, parseHexDigit h4 with
            | some a, some b, some c2, some d =>
              (fun p => (Char.ofNat (((a * 16 + b) * 16 + c2) * 16 + d) :: p.1, p.2)) <$>
                parseStringBody rest3
            | _, _, _, _ => none
          | _ => none
        else
          match decodeEscape e with
          | some d => (fun p => (d :: p.1, p.2)) <$> parseStringBody rest2
          | none => none
    else (fun p => (c :: p.1, p.2)) <$> parseStringBody rest

/-- Consume a maximal run of decimal digits, folding them onto `acc`. -/
def parseDigitsAux (acc : Nat) : List Char → Nat × List Char
  | [] => (acc, [])
  | c :: rest =>
    if c.isDigit then parseDigitsAux (acc * 10 + (c.toNat - 48)) rest else (acc, c :: rest)

mutual
/-- Parse one JSON value; `fuel` bounds the nesting and element count. -/
def parseV : Nat → List Char → Option (JVal × List Char)
  | 0, _ => none
  | fuel + 1, cs =>
    match cs with
    | [] => none
    | c :: rest =>
      if c = '"' then
        (fun p => (JVal.str (String.mk p.1), p.2)) <$> parseStringBody rest
      else if c = '[' then
        match rest with
        | ']' :: rest2 => some (.arr [], rest2)
        | _ => (fun p => (JVal.arr p.1, p.2)) <$> parseElems fuel rest
      else if c = '\x7b' then
        match rest with
        | '\x7d' :: rest2 => some (.obj [], rest2)
        | _ => (fun p => (JVal.obj p.1, p.2)) <$> parseMembers fuel rest
      else if c.isDigit then
        let p := parseDigitsAux (c.toNat - 48) rest
        some (.num p.1, p.2)
      else none

/-- Parse a nonempty comma-separated element list up to the closing `]`. -/
def parseElems : Nat → List Char → Option (List JVal × List Char)
  | 0, _ => none
  | fuel + 1, cs => do
    let (v, cs1) ← parseV fuel cs
    match cs1 with
    | ']' :: rest => some ([v], rest)
    | ',' :: ' ' :: rest => (fun p => (v :: p.1, p.2)) <$> parseElems fuel rest
    | _ => none

/-- Parse a nonempty member list up to the closing brace. -/
def parseMembers : Nat → List Char → Option (List (String × JVal) × List Char)
  | 0, _ => none
  | fuel + 1, cs =>
    match cs with
    | '"' :: rest => do
      let (k, cs1) ← parseStringBody rest
      match cs1 with
      | ':' :: ' ' :: cs2 => do
        let (v, cs3) ← parseV fuel cs2
        match cs3 with
        | '\x7d' :: rest2 => some ([(String.mk k, v)], rest2)
        | ',' :: ' ' :: rest2 =>
          (fun p => ((String.mk k, v) :: p.1, p.2)) <$> parseMembers fuel rest2
        | _ => none
      | _ => none
    | _ => none
end

/-- Model of `json.loads` on the canonical serialization: parse one value
and require the input to be exhausted. -/
def loads (s : String) : Option JVal :=
  match parseV (s.data.length + 1) s.data with
  | some (v, []) => some v
  | _ => none
theorem parseHexDigit_hexDigitChar : ∀ n < 16, parseHexDigit (hexDigitChar n) = some n := by
  decide

theorem parseStringBody_escapeString (s rest : List Char) :
    parseStringBody (escapeString s ++ '"' :: rest) = some (s, rest) := by
  induction s with
  | nil =>
    rw [show escapeString [] = [] from rfl, List.nil_append, parseStringBody.eq_def]
    simp
  | cons c s ih =>
    have hexp : escapeString (c :: s) = escapeChar c ++ escapeString s := by
      simp [escapeString]
    rw [hexp, List.append_assoc]
    by_cases h1 : c = '"'
    · subst h1
      rw [show escapeChar '"' = ['\\', '"'] from by decide, List.cons_append, List.cons_append,
        List.nil_append, parseStringBody.eq_def]
      simp +decide [decodeEscape, ih]
    by_cases h2 : c = '\\'
    · subst h2
      rw [show escapeChar '\\' = ['\\', '\\'] from by decide, List.cons_append, List.cons_append,
        List.nil_append, parseStringBody.eq_def]
      simp +decide [decodeEscape, ih]
    by_cases h3 : c = '\n'
    · subst h3
      rw [show escapeChar '\n' = ['\\', 'n'] from by decide, List.cons_append, List.cons_append,
        List.nil_append, parseStringBody.eq_def]
      simp +decide [decodeEscape, ih]
    by_cases h4 : c = '\t'
    · subst h4
      rw [show escapeChar '\t' = ['\\', 't'] from by decide, List.cons_append, List.cons_append,
        List.nil_append, parseStringBody.eq_def]
      simp +decide [decodeEscape, ih]
    by_cases h5 : c = '\r'
    · subst h5
      rw [show escapeChar '\r' = ['\\', 'r'] from by decide, List.cons_append, List.cons_append,
        List.nil_append, parseStringBody.eq_def]
      simp +decide [decodeEscape, ih]
    by_cases h6 : c = '\x08'
    · subst h6
      rw [show escapeChar '\x08' = ['\\', 'b'] from by decide, List.cons_append, List.cons_append,
        List.nil_append, parseStringBody.eq_def]
      simp +decide [decodeEscape, ih]
    by_cases h7 : c = '\x0c'
    · subst h7
      rw [show escapeChar '\x0c' = ['\\', 'f'] from by decide, List.cons_append, List.cons_append,
        List.nil_append, parseStringBody.eq_def]
      simp +decide [decodeEscape, ih]
    by_cases h8 : c.toNat < 32
    · have e1 : escapeChar c =
          ['\\', 'u', '0', '0', hexDigitChar (c.toNat / 16), hexDigitChar (c.toNat % 16)] := by
        simp [escapeChar, h1, h2, h3, h4, h5, h6, h7, h8]
      have hhi : parseHexDigit (hexDigitChar (c.toNat / 16)) = some (c.toNat / 16) :=
        parseHexDigit_hexDigitChar _ (by omega)
      have hlo : parseHexDigit (hexDigitChar (c.toNat % 16)) = some (c.toNat % 16) :=
        parseHexDigit_hexDigitChar _ (by omega)
      have hval : ((0 * 16 + 0) * 16 + c.toNat / 16) * 16 + c.toNat % 16 = c.toNat := by
        omega
      rw [e1]
      simp only [List.cons_append, List.nil_append]
      rw [parseStringBody.eq_def]
      simp +decide [hhi, hlo, ih]
      rw [show parseHexDigit '0' = some 0 from by decide]
      simp only [Option.some.injEq, Prod.mk.injEq]
      rw [show (((0 * 16 + 0) * 16 + c.toNat / 16) * 16 + c.toNat % 16 : Nat) = c.toNat from by
        omega]
      simp [Char.ofNat_toNat]
    · have e1 : escapeChar c = [c] := by
        simp [escapeChar, h1, h2, h3, h4, h5, h6, h7, h8]
      rw [e1]
      simp only [List.cons_append, List.nil_append]
      rw [parseStringBody.eq_def]
      simp +decide [h1, h2, ih]

/-- Characterization of `Char.isDigit` by code point. -/
theorem isDigit_iff (c : Char) : c.isDigit = true ↔ 48 ≤ c.toNat ∧ c.toNat ≤ 57 := by
  simp [Char.isDigit, Char.toNat]
  exact Iff.rfl

/-- Digit characters of digit values are digit characters. -/
theorem digitChar_isDigit : ∀ d < 10, (digitChar d).isDigit = true := by decide

/-- Reading a digit character back gives the digit. -/
theorem digitChar_val : ∀ d < 10, (digitChar d).toNat - 48 = d := by decide

/-- The decimal digit list of a natural number is never empty. -/
theorem natToDigits_ne_nil (n : Nat) : natToDigits n ≠ [] := by
  rw [natToDigits]
  split
  · simp
  · simp

/-- Every character produced by `natToDigits` is a digit. -/
theorem natToDigits_all_digit (n : Nat) : ∀ c ∈ natToDigits n, c.isDigit = true := by
  induction n using Nat.strong_induction_on with
  | _ n ih =>
    rw [natToDigits]
    split
    · next h =>
      intro c hc
      simp only [List.mem_singleton] at hc
      subst hc
      exact digitChar_isDigit n h
    · next h =>
      intro c hc
      rw [List.mem_append] at hc
      rcases hc with hc | hc
      · exact ih (n / 10) (Nat.div_lt_self (by omega) (by omega)) c hc
      · simp only [List.mem_singleton] at hc
        subst hc
        exact digitChar_isDigit (n % 10) (Nat.mod_lt _ (by omega))

/-- Folding the digit characters of `n` onto `acc` computes `acc` shifted
by the number of digits, plus `n`. -/
theorem foldl_natToDigits (n : Nat) :
    ∀ acc, (natToDigits n).foldl (fun a c => a * 10 + (c.toNat - 48)) acc
      = acc * 10 ^ (natToDigits n).length + n := by
  induction n using Nat.strong_induction_on with
  | _ n ih =>
    intro acc
    rw [natToDigits]
    split
    · next h =>
      simp only [List.foldl_cons, List.foldl_nil, List.length_singleton, pow_one]
      rw [digitChar_val n h]
    · next h =>
      rw [List.foldl_append, ih (n / 10) (Nat.div_lt_self (by omega) (by omega)) acc]
      simp only [List.foldl_cons, List.foldl_nil, List.length_append, List.length_singleton]
      rw [digitChar_val (n % 10) (Nat.mod_lt _ (by omega)), pow_succ]
      generalize (10 : Nat) ^ (natToDigits (n / 10)).length = k
      rw [← Nat.mul_assoc]
      generalize acc * k = m
      omega

/-- Consuming a run of digits followed by a non-digit boundary folds
exactly the digits onto the accumulator. -/
theorem parseDigitsAux_spec (ds : List Char) :
    ∀ acc rest, (∀ c ∈ ds, c.isDigit = true) →
      (∀ c rs, rest = c :: rs → c.isDigit = false) →
      parseDigitsAux acc (ds ++ rest)
        = (ds.foldl (fun a c => a * 10 + (c.toNat - 48)) acc, rest) := by
  induction ds with
  | nil =>
    intro acc rest _ hrest
    cases rest with
    | nil => simp [parseDigitsAux]
    | cons c rs => simp [parseDigitsAux, hrest c rs rfl]
  | cons c ds ih =>
    intro acc rest hds hrest
    simp only [List.cons_append, List.foldl_cons]
    rw [parseDigitsAux.eq_def]
    simp only [hds c (by simp), if_true]
    exact ih _ rest (fun x hx => hds x (by simp [hx])) hrest

/-- Parsing the serialization of a numeral at a non-digit boundary. -/
theorem parseV_natToDigits (fuel n : Nat) (rest : List Char)
    (hrest : ∀ c rs, rest = c :: rs → c.isDigit = false) :
    parseV (fuel + 1) (natToDigits n ++ rest) = some (.num n, rest) := by
  obtain ⟨c, cs, hd⟩ : ∃ c cs, natToDigits n = c :: cs := by
    cases h : natToDigits n with
    | nil => exact absurd h (natToDigits_ne_nil n)
    | cons c cs => exact ⟨c, cs, rfl⟩
  have hcd : c.isDigit = true := natToDigits_all_digit n c (by rw [hd]; simp)
  have hc48 : 48 ≤ c.toNat ∧ c.toNat ≤ 57 := (isDigit_iff c).mp hcd
  have hne1 : ¬(c = '"') := fun h => by subst h; revert hc48; decide
  have hne2 : ¬(c = '[') := fun h => by subst h; revert hc48; decide
  have hne3 : ¬(c = '\x7b') := fun h => by subst h; revert hc48; decide
  have hfold : (natToDigits n).foldl (fun a c => a * 10 + (c.toNat - 48)) 0 = n := by
    rw [foldl_natToDigits]
    simp
  rw [hd] at hfold
  simp only [List.foldl_cons, Nat.zero_mul, Nat.zero_add] at hfold
  rw [hd, List.cons_append, parseV.eq_def]
  simp only [hne1, if_false, hne2, hne3, hcd, if_true]
  rw [parseDigitsAux_spec cs (c.toNat - 48) rest
    (fun x hx => natToDigits_all_digit n x (by rw [hd]; simp [hx])) hrest]
  simp [hfold]

/-- Parsing the serialization of a string value. -/
theorem parseV_str (fuel : Nat) (s : String) (rest : List Char) :
    parseV (fuel + 1) (dumpsV (.str s) ++ rest) = some (.str s, rest) := by
  rw [show dumpsV (.str s) = '"' :: (escapeString s.data ++ ['"']) from rfl,
    List.cons_append, parseV.eq_def]
  simp only [if_pos rfl]
  rw [List.append_assoc, List.singleton_append, parseStringBody_escapeString]
  rfl

/-- Values that parse back correctly whenever they are followed by a comma
or a closing brace, at any fuel at or above the bound. -/
def ParsesAtSep (v : JVal) (bound : Nat) : Prop :=
  ∀ fuel c r, bound ≤ fuel → c = ',' ∨ c = '\x7d' →
    parseV fuel (dumpsV v ++ c :: r) = some (v, c :: r)

/-- A larger bound still witnesses `ParsesAtSep`. -/
theorem parsesAtSep_mono {v : JVal} {b b' : Nat} (h : b ≤ b') (hp : ParsesAtSep v b) :
    ParsesAtSep v b' :=
  fun fuel c r hf hc => hp fuel c r (by omega) hc

/-- String values parse back after any separator. -/
theorem parsesAtSep_str (s : String) : ParsesAtSep (.str s) 1 := by
  intro fuel c r hf _
  obtain ⟨f, rfl⟩ : ∃ f, fuel = f + 1 := ⟨fuel - 1, by omega⟩
  exact parseV_str f s (c :: r)

/-- Numeric values parse back when followed by a comma or closing brace. -/
theorem parsesAtSep_num (n : Nat) : ParsesAtSep (.num n) 1 := by
  intro fuel c r hf hc
  obtain ⟨f, rfl⟩ : ∃ f, fuel = f + 1 := ⟨fuel - 1, by omega⟩
  rw [show dumpsV (.num n) = natToDigits n from rfl]
  refine parseV_natToDigits f n (c :: r) ?_
  intro c2 rs h2
  cases h2
  rcases hc with rfl | rfl <;> decide

/-- Unfolding step of `parseElems` at positive fuel. -/
theorem parseElems_succ (fuel : Nat) (cs : List Char) :
    parseElems (fuel + 1) cs = (parseV fuel cs).bind fun p =>
      match p.2 with
      | ']' :: rest => some ([p.1], rest)
      | ',' :: ' ' :: rest => (fun q => (p.1 :: q.1, q.2)) <$> parseElems fuel rest
      | _ => none := by
  simp only [parseElems]
  cases h : parseV fuel cs with
  | none => rfl
  | some p => cases p with | mk v cs1 => rfl

/-- Unfolding step of `parseMembers` at positive fuel on one serialized
member followed by `tail`. -/
theorem parseMembers_step (fuel : Nat) (k : String) (tail : List Char) :
    parseMembers (fuel + 1) (dumpsString k ++ ':' :: ' ' :: tail)
      = (parseV fuel tail).bind fun p =>
          match p.2 with
          | '\x7d' :: rest2 => some ([(k, p.1)], rest2)
          | ',' :: ' ' :: rest2 => (fun q => ((k, p.1) :: q.1, q.2)) <$> parseMembers fuel rest2
          | _ => none := by
  rw [show dumpsString k ++ ':' :: ' ' :: tail
      = '"' :: (escapeString k.data ++ '"' :: ':' :: ' ' :: tail) from by
    simp [dumpsString]]
  simp only [parseMembers]
  simp only [parseStringBody_escapeString, Option.pure_def, Option.bind_eq_bind,
    Option.some_bind]

/-- Parsing the serialized elements of a nonempty array of strings. -/
theorem parseElems_strs (l : List String) :
    ∀ fuel rest, l ≠ [] → l.length + 1 ≤ fuel →
      parseElems fuel (dumpsElems (l.map JVal.str) ++ ']' :: rest)
        = some (l.map JVal.str, rest) := by
  induction l with
  | nil => intro fuel rest h _; exact absurd rfl h
  | cons s l ih =>
    intro fuel rest _ hfuel
    obtain ⟨f1, rfl⟩ : ∃ f, fuel = f + 1 := ⟨fuel - 1, by omega⟩
    simp only [List.length_cons] at hfuel
    obtain ⟨f2, rfl⟩ : ∃ f, f1 = f + 1 := ⟨f1 - 1, by omega⟩
    cases l with
    | nil =>
      rw [show dumpsElems ([s].map JVal.str) = dumpsV (.str s) from rfl,
        parseElems_succ, parseV_str f2 s (']' :: rest)]
      rfl
    | cons s2 l2 =>
      rw [show dumpsElems ((s :: s2 :: l2).map JVal.str)
          = dumpsV (.str s) ++ ',' :: ' ' :: dumpsElems ((s2 :: l2).map JVal.str) from rfl,
        List.append_assoc, parseElems_succ]
      rw [show (',' :: ' ' :: dumpsElems ((s2 :: l2).map JVal.str)) ++ ']' :: rest
          = ',' :: ' ' :: (dumpsElems ((s2 :: l2).map JVal.str) ++ ']' :: rest) from rfl]
      rw [parseV_str f2 s]
      simp only [Option.pure_def, Option.bind_eq_bind, Option.some_bind]
      rw [ih (f2 + 1) rest (by simp) (by simp only [List.length_cons] at hfuel ⊢; omega)]
      rfl

/-- Parsing the serialization of an array of strings. -/
theorem parseV_arr_strs (l : List String) :
    ∀ fuel rest, l.length + 2 ≤ fuel →
      parseV fuel (dumpsV (.arr (l.map JVal.str)) ++ rest)
        = some (.arr (l.map JVal.str), rest) := by
  intro fuel rest hfuel
  obtain ⟨f1, rfl⟩ : ∃ f, fuel = f + 1 := ⟨fuel - 1, by omega⟩
  cases l with
  | nil =>
    rw [show dumpsV (.arr (([] : List String).map JVal.str)) = ['[', ']'] from rfl,
      parseV.eq_def]
    simp +decide
  | cons s l2 =>
    obtain ⟨t, ht⟩ : ∃ t, dumpsElems ((s :: l2).map JVal.str) = '"' :: t := by
      cases l2 <;> exact ⟨_, rfl⟩
    rw [show dumpsV (.arr ((s :: l2).map JVal.str))
        = '[' :: (dumpsElems ((s :: l2).map JVal.str) ++ [']']) from rfl,
      List.cons_append, List.append_assoc, List.singleton_append, ht,
      List.cons_append, parseV.eq_def]
    simp +decide
    rw [← List.cons_append, ← ht, parseElems_strs (s :: l2) f1 rest (by simp)
      (by simp only [List.length_cons] at hfuel ⊢; omega)]
    rfl

/-- Arrays of strings parse back after any separator. -/
theorem parsesAtSep_arr_strs (l : List String) :
    ParsesAtSep (.arr (l.map JVal.str)) (l.length + 2) :=
  fun fuel c r hf _ => parseV_arr_strs l fuel (c :: r) hf

/-- Parsing the serialized members of a nonempty object whose values all
parse back at bound `b`. -/
theorem parseMembers_dumps (ms : List (String × JVal)) (b : Nat)
    (hvals : ∀ p ∈ ms, ParsesAtSep p.2 b) :
    ∀ fuel rest, ms ≠ [] → ms.length + b ≤ fuel →
      parseMembers fuel (dumpsMembers ms ++ '\x7d' :: rest) = some (ms, rest) := by
  induction ms with
  | nil => intro fuel rest h _; exact absurd rfl h
  | cons m ms ih =>
    obtain ⟨k, v⟩ := m
    intro fuel rest _ hfuel
    simp only [List.length_cons] at hfuel
    obtain ⟨f1, rfl⟩ : ∃ f, fuel = f + 1 := ⟨fuel - 1, by omega⟩
    cases ms with
    | nil =>
      rw [show dumpsMembers [(k, v)] ++ '\x7d' :: rest
          = dumpsString k ++ ':' :: ' ' :: (dumpsV v ++ '\x7d' :: rest) from by
        simp [dumpsMembers]]
      rw [parseMembers_step, hvals (k, v) (by simp) f1 '\x7d' rest (by omega) (Or.inr rfl)]
      rfl
    | cons m2 ms2 =>
      rw [show dumpsMembers ((k, v) :: m2 :: ms2) ++ '\x7d' :: rest
          = dumpsString k ++ ':' :: ' '
              :: (dumpsV v ++ ',' :: ' ' :: (dumpsMembers (m2 :: ms2) ++ '\x7d' :: rest)) from by
        simp [dumpsMembers]]
      rw [parseMembers_step, hvals (k, v) (by simp) f1 ','
        (' ' :: (dumpsMembers (m2 :: ms2) ++ '\x7d' :: rest)) (by omega) (Or.inl rfl)]
      simp only [Option.pure_def, Option.bind_eq_bind, Option.some_bind]
      rw [ih (fun p hp => hvals p (by simp [hp])) f1 rest (by simp)
        (by simp only [List.length_cons] at hfuel ⊢; omega)]
      rfl

/-- Parsing the serialization of a nonempty object whose values all parse
back at bound `b`. -/
theorem parseV_obj_dumps (ms : List (String × JVal)) (b : Nat)
    (hvals : ∀ p ∈ ms, ParsesAtSep p.2 b) (hne : ms ≠ []) :
    ∀ fuel rest, ms.length + b + 1 ≤ fuel →
      parseV fuel (dumpsV (.obj ms) ++ rest) = some (.obj ms, rest) := by
  intro fuel rest hfuel
  obtain ⟨f1, rfl⟩ : ∃ f, fuel = f + 1 := ⟨fuel - 1, by omega⟩
  obtain ⟨k, v, ms2, rfl⟩ : ∃ k v ms2, ms = (k, v) :: ms2 := by
    cases ms with
    | nil => exact absurd rfl hne
    | cons m ms2 => exact ⟨m.1, m.2, ms2, by rw [Prod.mk.eta]⟩
  obtain ⟨t, ht⟩ : ∃ t, dumpsMembers ((k, v) :: ms2) = '"' :: t := by
    cases ms2 with
    | nil => exact ⟨_, rfl⟩
    | cons m3 ms3 =>
      exact ⟨escapeString k.data ++ '"' :: ':' :: ' '
          :: (dumpsV v ++ ',' :: ' ' :: dumpsMembers (m3 :: ms3)),
        by simp [dumpsMembers, dumpsString]⟩
  rw [show dumpsV (.obj ((k, v) :: ms2))
      = '\x7b' :: (dumpsMembers ((k, v) :: ms2) ++ ['\x7d']) from rfl,
    List.cons_append, List.append_assoc, List.singleton_append, ht,
    List.cons_append, parseV.eq_def]
  simp +decide
  rw [← List.cons_append, ← ht, parseMembers_dumps ((k, v) :: ms2) b hvals f1 rest (by simp)
    (by simp only [List.length_cons] at hfuel ⊢; omega)]

/-- Nonempty objects of separately parseable values parse back after any
separator. -/
theorem parsesAtSep_obj (ms : List (String × JVal)) (b : Nat)
    (hvals : ∀ p ∈ ms, ParsesAtSep p.2 b) (hne : ms ≠ []) :
    ParsesAtSep (.obj ms) (ms.length + b + 1) :=
  fun fuel c r hf _ => parseV_obj_dumps ms b hvals hne fuel (c :: r) hf

/-- Normal form of a successful payload construction: both lookups succeed
and the payload is the base dict plus the optional truthy timeout entry. -/
theorem build_alert_payload_eq (ctx : Ctx) (initiative r ev : String) (resolve : Bool)
    (timeout : Option Nat) (rc : ResourceClassifiers) (sv : String)
    (hr : List.lookup r MAP_RESOURCE_TO_ENV_SERVICE_AND_GROUP = some rc)
    (hs : List.lookup ctx.severity SEVERITY_TO_ALERTA_FORMAT = some sv) :
    build_alert_payload ctx initiative r ev resolve timeout
      = .ok (basePayload r ev (pyCapitalize rc.env) (if resolve then "cleared" else sv)
            rc.service rc.group ctx.summary [("initiative", .str initiative)]
          ++ (match timeout with
              | some t => if t ≠ 0 then [("timeout", JVal.num t)] else []
              | none => [])) := by
  simp only [build_alert_payload, hr, hs]
  cases timeout with
  | none => simp
  | some t =>
    by_cases ht : t = 0 <;> simp [ht]

/-- Serialized string literals take at least the two quote characters. -/
theorem dumpsString_length (s : String) : 2 ≤ (dumpsString s).length := by
  simp [dumpsString]

/-- Serialized string elements dominate the element count. -/
theorem dumpsElems_strs_length (l : List String) :
    l.length ≤ (dumpsElems (l.map JVal.str)).length := by
  induction l with
  | nil => simp [dumpsElems]
  | cons s l ih =>
    cases l with
    | nil =>
      have h := dumpsString_length s
      simp only [List.map_cons, List.map_nil, dumpsElems, dumpsV, List.length_cons,
        List.length_nil]
      omega
    | cons s2 l2 =>
      have h := dumpsString_length s
      simp only [List.map_cons, dumpsElems, dumpsV, List.length_append, List.length_cons] at *
      omega

/-- Serialized string arrays dominate the element count plus brackets. -/
theorem dumpsV_arr_strs_length (l : List String) :
    l.length + 2 ≤ (dumpsV (.arr (l.map JVal.str))).length := by
  have h := dumpsElems_strs_length l
  simp only [dumpsV, List.length_cons, List.length_append, List.length_singleton]
  omega

/-- Round trip through the serializer and parser for a nonempty object
whose values parse back at bound `b`, given enough input length. -/
theorem loads_dumps_obj (ms : List (String × JVal)) (b : Nat)
    (hvals : ∀ p ∈ ms, ParsesAtSep p.2 b) (hne : ms ≠ [])
    (hlen : ms.length + b + 1 ≤ (dumpsV (.obj ms)).length + 1) :
    loads (String.mk (dumpsV (.obj ms))) = some (.obj ms) := by
  unfold loads
  rw [show (String.mk (dumpsV (.obj ms))).data = dumpsV (.obj ms) from rfl]
  have h := parseV_obj_dumps ms b hvals hne ((dumpsV (.obj ms)).length + 1) [] hlen
  rw [List.append_nil] at h
  rw [h]

/-- Round trip for the exact payload shape the builder produces, with an
optional timeout entry appended. -/
theorem loads_dumps_basePayload (r ev env sv : String) (service : List String)
    (group text initiative : String) (tail : List (String × JVal))
    (htail : tail = [] ∨ ∃ t, tail = [("timeout", JVal.num t)]) :
    loads (String.mk (dumpsV (.obj (basePayload r ev env sv service group text
        [("initiative", JVal.str initiative)] ++ tail))))
      = some (.obj (basePayload r ev env sv service group text
          [("initiative", JVal.str initiative)] ++ tail)) := by
  apply loads_dumps_obj _ (service.length + 3)
  · intro p hp
    have hattr : ParsesAtSep (.obj [("initiative", JVal.str initiative)]) 3 := by
      have h := parsesAtSep_obj [("initiative", JVal.str initiative)] 1
        (fun q hq => by
          simp only [List.mem_singleton] at hq
          subst hq
          exact parsesAtSep_str initiative)
        (by simp)
      simpa using h
    rcases htail with rfl | ⟨t, rfl⟩
    · simp only [basePayload, List.append_nil, List.mem_cons,
        List.not_mem_nil, or_false] at hp
      rcases hp with rfl | rfl | rfl | rfl | rfl | rfl | rfl | rfl <;>
        first
          | exact parsesAtSep_mono (by omega) (parsesAtSep_str _)
          | exact parsesAtSep_mono (by omega) (parsesAtSep_arr_strs _)
          | exact parsesAtSep_mono (by omega) hattr
    · simp only [basePayload, List.cons_append, List.nil_append, List.mem_cons,
        List.not_mem_nil, or_false] at hp
      rcases hp with rfl | rfl | rfl | rfl | rfl | rfl | rfl | rfl | rfl <;>
        first
          | exact parsesAtSep_mono (by omega) (parsesAtSep_str _)
          | exact parsesAtSep_mono (by omega) (parsesAtSep_arr_strs _)
          | exact parsesAtSep_mono (by omega) hattr
          | exact parsesAtSep_mono (by omega) (parsesAtSep_num _)
  · rcases htail with rfl | ⟨t, rfl⟩ <;> simp [basePayload]
  · have c1 := dumpsString_length "resource"
    have c2 := dumpsString_length "event"
    have c3 := dumpsString_length "environment"
    have c4 := dumpsString_length "severity"
    have c5 := dumpsString_length "service"
    have c6 := dumpsString_length "group"
    have c7 := dumpsString_length "text"
    have c8 := dumpsString_length "attributes"
    have c9 := dumpsString_length "timeout"
    have hserv := dumpsV_arr_strs_length service
    have helems := dumpsElems_strs_length service
    rcases htail with rfl | ⟨t, rfl⟩ <;>
    · simp only [basePayload, List.append_nil, List.cons_append, List.nil_append,
        dumpsV, dumpsMembers, List.length_append, List.length_cons, List.length_nil,
        List.length_singleton]
      omega

/-- Dispatch of a successfully built payload: in test mode an info log, in
real mode the transport effects. -/
theorem send_ok_of_build_ok (ctx : Ctx) (initiative r ev : String) (resolve : Bool)
    (timeout : Option Nat) (p : List (String × JVal))
    (hrl : ctx.passedRateLimit = true)
    (hb : build_alert_payload ctx initiative r ev resolve timeout = .ok p) :
    send_to_alerta ctx initiative (some r) (some ev) resolve timeout
      = .ok (if ctx.inTestMode
          then ⟨[(.info, "alertlib: would send to aggregator: "
              ++ String.mk (dumpsV (.obj p)))], []⟩
          else post_to_alerta ctx.apiKey ctx.net (String.mk (dumpsV (.obj p)))) := by
  cases htest : ctx.inTestMode <;> simp [send_to_alerta, hrl, hb, htest]

/-! Claims. -/

/-- C5: the precondition checks run in order and each short-circuits: a
denied rate limit returns self with no log and no network call; otherwise a
null resource logs the resource error and returns; otherwise a null event
logs the event error and returns — in each case with no network call. -/
theorem C5_gate_order (ctx : Ctx) (initiative : String) (resource event : Option String)
    (resolve : Bool) (timeout : Option Nat) :
    (ctx.passedRateLimit = false →
      send_to_alerta ctx initiative resource event resolve timeout = .ok ⟨[], []⟩) ∧
    (ctx.passedRateLimit = true → resource = none →
      send_to_alerta ctx initiative resource event resolve timeout
        = .ok ⟨[(.error, "Resource must be provided. Failed to send to aggregator.")], []⟩) ∧
    (ctx.passedRateLimit = true → (∃ r, resource = some r) → event = none →
      send_to_alerta ctx initiative resource event resolve timeout
        = .ok ⟨[(.error, "Event name must be provided. Failed to send to aggregator.")], []⟩) := by
  refine ⟨fun h => ?_, fun h hr => ?_, fun h hr hev => ?_⟩
  · simp [send_to_alerta, h]
  · subst hr; simp [send_to_alerta, h]
  · obtain ⟨r, rfl⟩ := hr
    subst hev
    simp [send_to_alerta, h]

/-- Witness for C5 at concrete inputs, one per gate. -/
theorem C5_gate_order_witness :
    send_to_alerta ⟨false, 40, "boom", false, none, .err "x"⟩ "infra" (some "webapp")
        (some "Errors") false none = .ok ⟨[], []⟩
    ∧ send_to_alerta ⟨true, 40, "boom", false, none, .err "x"⟩ "infra" none
        (some "Errors") false none
      = .ok ⟨[(.error, "Resource must be provided. Failed to send to aggregator.")], []⟩
    ∧ send_to_alerta ⟨true, 40, "boom", false, none, .err "x"⟩ "infra" (some "webapp")
        none false none
      = .ok ⟨[(.error, "Event name must be provided. Failed to send to aggregator.")], []⟩ :=
  ⟨(C5_gate_order ⟨false, 40, "boom", false, none, .err "x"⟩ "infra" (some "webapp")
      (some "Errors") false none).1 rfl,
   (C5_gate_order ⟨true, 40, "boom", false, none, .err "x"⟩ "infra" none
      (some "Errors") false none).2.1 rfl rfl,
   (C5_gate_order ⟨true, 40, "boom", false, none, .err "x"⟩ "infra" (some "webapp")
      none false none).2.2 rfl ⟨"webapp", rfl⟩ rfl⟩

/-- C2: past the rate limit with non-null resource and event, a resource
that is not a key of the classification table makes the unguarded dict
lookup raise, and the KeyError propagates to the caller. -/
theorem C2_unrecognized_resource (ctx : Ctx) (initiative r ev : String)
    (resolve : Bool) (timeout : Option Nat)
    (hrl : ctx.passedRateLimit = true)
    (hr : List.lookup r MAP_RESOURCE_TO_ENV_SERVICE_AND_GROUP = none) :
    send_to_alerta ctx initiative (some r) (some ev) resolve timeout
      = .error (.keyErrorStr r) := by
  simp [send_to_alerta, build_alert_payload, hrl, hr]

/-- Witness for C2 at a concrete unrecognized resource. -/
theorem C2_unrecognized_resource_witness :
    List.lookup "bogus" MAP_RESOURCE_TO_ENV_SERVICE_AND_GROUP = none
    ∧ send_to_alerta ⟨true, 40, "boom", false, none, .err "x"⟩ "infra" (some "bogus")
        (some "Errors") false none = .error (.keyErrorStr "bogus") :=
  ⟨by decide,
   C2_unrecognized_resource ⟨true, 40, "boom", false, none, .err "x"⟩ "infra" "bogus"
     "Errors" false none rfl (by decide)⟩

/-- C10: the severity lookup happens before the resolve override, so with a
recognized resource but a severity outside the six standard levels the
KeyError propagates even when resolve is true. -/
theorem C10_resolve_does_not_bypass (ctx : Ctx) (initiative r ev : String)
    (timeout : Option Nat) (rc : ResourceClassifiers)
    (hrl : ctx.passedRateLimit = true)
    (hr : List.lookup r MAP_RESOURCE_TO_ENV_SERVICE_AND_GROUP = some rc)
    (hs : List.lookup ctx.severity SEVERITY_TO_ALERTA_FORMAT = none) :
    send_to_alerta ctx initiative (some r) (some ev) true timeout
      = .error (.keyErrorNat ctx.severity) := by
  simp [send_to_alerta, build_alert_payload, hrl, hr, hs]

/-- Witness for C10 at severity 25, which is not a logging level. -/
theorem C10_resolve_does_not_bypass_witness :
    List.lookup 25 SEVERITY_TO_ALERTA_FORMAT = none
    ∧ send_to_alerta ⟨true, 25, "boom", false, none, .err "x"⟩ "infra" (some "webapp")
        (some "Errors") true none = .error (.keyErrorNat 25) :=
  ⟨by decide,
   C10_resolve_does_not_bypass ⟨true, 25, "boom", false, none, .err "x"⟩ "infra" "webapp"
     "Errors" none ⟨ENV_PROD, [SERVICE_KA], GROUP_WEB⟩ rfl (by decide) (by decide)⟩

/-- C7: with the API credential missing or empty, the transport makes no
network call and only logs a warning whose text carries the payload. -/
theorem C7_no_api_key (apiKey : Option String) (net : NetResult) (payload_json : String)
    (h : secretAbsent apiKey = true) :
    post_to_alerta apiKey net payload_json
      = ⟨[(.warning, "Not sending to Alerta (no API key found): " ++ payload_json)], []⟩ := by
  simp [post_to_alerta, h]

/-- Witness for C7 with a missing key. -/
theorem C7_no_api_key_witness :
    post_to_alerta none (.ok 201 "") "PAYLOAD"
      = ⟨[(.warning, "Not sending to Alerta (no API key found): PAYLOAD")], []⟩ :=
  C7_no_api_key none (.ok 201 "") "PAYLOAD" rfl

/-- C8: with a credential present, response codes 201 and 202 — and only
those — are success with no error logged; any other code is a failure
carrying the response body, any raised transport error is a failure
carrying its detail, and every failure is logged together with the payload
inside `post_to_alerta`, which never re-raises (it always returns plain
effects). -/
theorem C8_transport_codes (apiKey : Option String) (net : NetResult) (payload_json : String)
    (hkey : secretAbsent apiKey = false) :
    (make_alerta_api_call net = .ok () ↔ ∃ b, net = .ok 201 b ∨ net = .ok 202 b)
    ∧ (∀ b, net = .ok 201 b ∨ net = .ok 202 b →
        post_to_alerta apiKey net payload_json = ⟨[], [payload_json]⟩)
    ∧ (∀ code b, net = .ok code b → code ≠ 201 → code ≠ 202 →
        post_to_alerta apiKey net payload_json
          = ⟨[(.error, "Failed sending " ++ payload_json ++ " to Alerta: " ++ b)],
             [payload_json]⟩)
    ∧ (∀ e, net = .err e →
        post_to_alerta apiKey net payload_json
          = ⟨[(.error, "Failed sending " ++ payload_json ++ " to Alerta: " ++ e)],
             [payload_json]⟩) := by
  refine ⟨?_, ?_, ?_, ?_⟩
  · cases net with
    | err d => simp [make_alerta_api_call]
    | ok code body =>
      simp only [make_alerta_api_call]
      by_cases h1 : code = 201
      · subst h1; simp
      · by_cases h2 : code = 202
        · subst h2; simp
        · simp [h1, h2]
  · intro b hb
    rcases hb with rfl | rfl <;> simp [post_to_alerta, hkey, make_alerta_api_call]
  · intro code b hnet h1 h2
    subst hnet
    simp [post_to_alerta, hkey, make_alerta_api_call, h1, h2]
  · intro e hnet
    subst hnet
    simp [post_to_alerta, hkey, make_alerta_api_call]

/-- Witness for C8: a present key with a 500 response carrying a body. -/
theorem C8_transport_codes_witness :
    post_to_alerta (some "k") (.ok 500 "server error") "PAYLOAD"
      = ⟨[(.error, "Failed sending PAYLOAD to Alerta: server error")], ["PAYLOAD"]⟩
    ∧ post_to_alerta (some "k") (.ok 202 "") "PAYLOAD" = ⟨[], ["PAYLOAD"]⟩ :=
  ⟨(C8_transport_codes (some "k") (.ok 500 "server error") "PAYLOAD" rfl).2.2.1
      500 "server error" rfl (by decide) (by decide),
   (C8_transport_codes (some "k") (.ok 202 "") "PAYLOAD" rfl).2.1 "" (Or.inr rfl)⟩

/-- C9: with test/dry-run mode active, no network post is attempted on any
input, and whenever the payload is built the would-be payload JSON is
logged at info level instead. -/
theorem C9_test_mode (ctx : Ctx) (initiative : String) (resource event : Option String)
    (resolve : Bool) (timeout : Option Nat)
    (htest : ctx.inTestMode = true) :
    (∀ eff, send_to_alerta ctx initiative resource event resolve timeout = .ok eff →
      eff.posts = [])
    ∧ (∀ r ev p, resource = some r → event = some ev → ctx.passedRateLimit = true →
        build_alert_payload ctx initiative r ev resolve timeout = .ok p →
        send_to_alerta ctx initiative resource event resolve timeout
          = .ok ⟨[(.info, "alertlib: would send to aggregator: "
              ++ String.mk (dumpsV (.obj p)))], []⟩) := by
  constructor
  · intro eff heff
    cases hrl : ctx.passedRateLimit with
    | false =>
      simp [send_to_alerta, hrl] at heff
      subst heff
      rfl
    | true =>
      cases resource with
      | none =>
        simp [send_to_alerta, hrl] at heff
        subst heff
        rfl
      | some r =>
        cases event with
        | none =>
          simp [send_to_alerta, hrl] at heff
          subst heff
          rfl
        | some ev =>
          cases hb : build_alert_payload ctx initiative r ev resolve timeout with
          | error e => simp [send_to_alerta, hrl, hb] at heff
          | ok p =>
            simp [send_to_alerta, hrl, hb, htest] at heff
            subst heff
            rfl
  · intro r ev p hres hev hrl hb
    subst hres
    subst hev
    simp [send_to_alerta, hrl, hb, htest]

/-- Witness for C9 at a concrete call in test mode. -/
theorem C9_test_mode_witness :
    send_to_alerta ⟨true, 40, "boom", true, some "k", .ok 201 ""⟩ "infra" (some "jenkins")
        (some "BuildFailed") false none
      = .ok ⟨[(.info, "alertlib: would send to aggregator: "
          ++ String.mk (dumpsV (.obj (basePayload "jenkins" "BuildFailed" "Development"
              "major" ["Deployment"] "tools" "boom"
              [("initiative", JVal.str "infra")] ++ []))))], []⟩ :=
  (C9_test_mode ⟨true, 40, "boom", true, some "k", .ok 201 ""⟩ "infra" (some "jenkins")
      (some "BuildFailed") false none rfl).2 "jenkins" "BuildFailed" _ rfl rfl rfl
    (build_alert_payload_eq ⟨true, 40, "boom", true, some "k", .ok 201 ""⟩ "infra" "jenkins"
      "BuildFailed" false none ⟨ENV_DEV, [SERVICE_DEPLOY], GROUP_TOOLS⟩ "major"
      (by decide) (by decide))

/-- C3: the payload severity is the fixed table image of the logging level
(critical, major, warning, informational, debug, unknown for the six
standard levels), and whenever resolve is true the payload severity is the
literal cleared regardless of the input severity. -/
theorem C3_severity_mapping (ctx : Ctx) (initiative r ev : String) (timeout : Option Nat)
    (rc : ResourceClassifiers) (sv : String)
    (hr : List.lookup r MAP_RESOURCE_TO_ENV_SERVICE_AND_GROUP = some rc)
    (hs : List.lookup ctx.severity SEVERITY_TO_ALERTA_FORMAT = some sv) :
    (List.lookup 50 SEVERITY_TO_ALERTA_FORMAT = some "critical"
      ∧ List.lookup 40 SEVERITY_TO_ALERTA_FORMAT = some "major"
      ∧ List.lookup 30 SEVERITY_TO_ALERTA_FORMAT = some "warning"
      ∧ List.lookup 20 SEVERITY_TO_ALERTA_FORMAT = some "informational"
      ∧ List.lookup 10 SEVERITY_TO_ALERTA_FORMAT = some "debug"
      ∧ List.lookup 0 SEVERITY_TO_ALERTA_FORMAT = some "unknown")
    ∧ (∀ p, build_alert_payload ctx initiative r ev false timeout = .ok p →
        List.lookup "severity" p = some (.str sv))
    ∧ (∀ p, build_alert_payload ctx initiative r ev true timeout = .ok p →
        List.lookup "severity" p = some (.str "cleared")) := by
  refine ⟨by decide, ?_, ?_⟩
  · intro p hb
    rw [build_alert_payload_eq ctx initiative r ev false timeout rc sv hr hs] at hb
    injection hb with hb
    subst hb
    simp +decide [basePayload, List.lookup, List.cons_append]
  · intro p hb
    rw [build_alert_payload_eq ctx initiative r ev true timeout rc sv hr hs] at hb
    injection hb with hb
    subst hb
    simp +decide [basePayload, List.lookup, List.cons_append]

/-- Witness for C3 with severity CRITICAL=50, resolved and unresolved. -/
theorem C3_severity_mapping_witness :
    List.lookup "severity" (basePayload "webapp" "Errors" (pyCapitalize ENV_PROD) "critical"
        [SERVICE_KA] GROUP_WEB "boom" [("initiative", JVal.str "infra")])
      = some (.str "critical")
    ∧ List.lookup "severity" (basePayload "webapp" "Errors" (pyCapitalize ENV_PROD) "cleared"
        [SERVICE_KA] GROUP_WEB "boom" [("initiative", JVal.str "infra")])
      = some (.str "cleared") :=
  ⟨(C3_severity_mapping ⟨true, 50, "boom", false, none, .err "x"⟩ "infra" "webapp" "Errors"
      none ⟨ENV_PROD, [SERVICE_KA], GROUP_WEB⟩ "critical" (by decide) (by decide)).2.1
    _ rfl,
   (C3_severity_mapping ⟨true, 50, "boom", false, none, .err "x"⟩ "infra" "webapp" "Errors"
      none ⟨ENV_PROD, [SERVICE_KA], GROUP_WEB⟩ "critical" (by decide) (by decide)).2.2
    _ rfl⟩

/-- C4: for a recognized resource, a call past the rate limit with non-null
resource and event succeeds, and the built payload carries exactly the
table entry: capitalized environment, the service list, and the group. -/
theorem C4_resource_classification (ctx : Ctx) (initiative r ev : String) (resolve : Bool)
    (timeout : Option Nat) (rc : ResourceClassifiers) (sv : String)
    (hrl : ctx.passedRateLimit = true)
    (hr : List.lookup r MAP_RESOURCE_TO_ENV_SERVICE_AND_GROUP = some rc)
    (hs : List.lookup ctx.severity SEVERITY_TO_ALERTA_FORMAT = some sv) :
    (∃ eff, send_to_alerta ctx initiative (some r) (some ev) resolve timeout = .ok eff)
    ∧ (∀ p, build_alert_payload ctx initiative r ev resolve timeout = .ok p →
        List.lookup "environment" p = some (.str (pyCapitalize rc.env))
        ∧ List.lookup "service" p = some (.arr (rc.service.map JVal.str))
        ∧ List.lookup "group" p = some (.str rc.group)) := by
  constructor
  · exact ⟨_, send_ok_of_build_ok ctx initiative r ev resolve timeout _ hrl
      (build_alert_payload_eq ctx initiative r ev resolve timeout rc sv hr hs)⟩
  · intro p hb
    rw [build_alert_payload_eq ctx initiative r ev resolve timeout rc sv hr hs] at hb
    injection hb with hb
    subst hb
    refine ⟨?_, ?_, ?_⟩ <;> simp +decide [basePayload, List.lookup, List.cons_append]

/-- Witness for C4 on the jenkins table entry. -/
theorem C4_resource_classification_witness :
    (∃ eff, send_to_alerta ⟨true, 40, "boom", false, some "k", .ok 201 ""⟩ "infra"
        (some "jenkins") (some "BuildFailed") false none = .ok eff)
    ∧ (List.lookup "environment" (basePayload "jenkins" "BuildFailed"
          (pyCapitalize ENV_DEV) "major" [SERVICE_DEPLOY] GROUP_TOOLS "boom"
          [("initiative", JVal.str "infra")])
        = some (.str (pyCapitalize ENV_DEV))
      ∧ List.lookup "service" (basePayload "jenkins" "BuildFailed"
          (pyCapitalize ENV_DEV) "major" [SERVICE_DEPLOY] GROUP_TOOLS "boom"
          [("initiative", JVal.str "infra")])
        = some (.arr ([SERVICE_DEPLOY].map JVal.str))
      ∧ List.lookup "group" (basePayload "jenkins" "BuildFailed"
          (pyCapitalize ENV_DEV) "major" [SERVICE_DEPLOY] GROUP_TOOLS "boom"
          [("initiative", JVal.str "infra")])
        = some (.str GROUP_TOOLS)) :=
  ⟨(C4_resource_classification ⟨true, 40, "boom", false, some "k", .ok 201 ""⟩ "infra"
      "jenkins" "BuildFailed" false none ⟨ENV_DEV, [SERVICE_DEPLOY], GROUP_TOOLS⟩ "major"
      rfl (by decide) (by decide)).1,
   (C4_resource_classification ⟨true, 40, "boom", false, some "k", .ok 201 ""⟩ "infra"
      "jenkins" "BuildFailed" false none ⟨ENV_DEV, [SERVICE_DEPLOY], GROUP_TOOLS⟩ "major"
      rfl (by decide) (by decide)).2 _ rfl⟩

/-- C6: every successfully built payload serializes to JSON that parses
back to exactly the same mapping; its key list is exactly resource, event,
environment, severity, service, group, text, attributes, plus timeout
exactly when a non-zero, non-null timeout was supplied; and attributes is
exactly the one-entry initiative mapping. -/
theorem C6_roundtrip (ctx : Ctx) (initiative r ev : String) (resolve : Bool)
    (timeout : Option Nat) (rc : ResourceClassifiers) (sv : String)
    (hr : List.lookup r MAP_RESOURCE_TO_ENV_SERVICE_AND_GROUP = some rc)
    (hs : List.lookup ctx.severity SEVERITY_TO_ALERTA_FORMAT = some sv) :
    ∃ p, build_alert_payload ctx initiative r ev resolve timeout = .ok p
      ∧ loads (String.mk (dumpsV (.obj p))) = some (.obj p)
      ∧ p.map Prod.fst
          = ["resource", "event", "environment", "severity", "service", "group", "text",
             "attributes"]
            ++ (match timeout with
                | some t => if t ≠ 0 then ["timeout"] else []
                | none => [])
      ∧ List.lookup "attributes" p = some (.obj [("initiative", JVal.str initiative)]) := by
  refine ⟨_, build_alert_payload_eq ctx initiative r ev resolve timeout rc sv hr hs,
    ?_, ?_, ?_⟩
  · apply loads_dumps_basePayload
    cases timeout with
    | none => exact Or.inl rfl
    | some t =>
      by_cases ht : t = 0
      · exact Or.inl (by simp [ht])
      · exact Or.inr ⟨t, by simp [ht]⟩
  · cases timeout with
    | none => simp [basePayload]
    | some t => by_cases ht : t = 0 <;> simp [basePayload, ht]
  · simp +decide [basePayload, List.lookup, List.cons_append]

/-- Witness for C6 with a 300 second timeout supplied. -/
theorem C6_roundtrip_witness :
    ∃ p, build_alert_payload ⟨true, 40, "boom", false, none, .err "x"⟩ "infra" "jenkins"
        "BuildFailed" false (some 300) = .ok p
      ∧ loads (String.mk (dumpsV (.obj p))) = some (.obj p)
      ∧ p.map Prod.fst
          = ["resource", "event", "environment", "severity", "service", "group", "text",
             "attributes"]
            ++ (match (some 300 : Option Nat) with
                | some t => if t ≠ 0 then ["timeout"] else []
                | none => [])
      ∧ List.lookup "attributes" p = some (.obj [("initiative", JVal.str "infra")]) :=
  C6_roundtrip ⟨true, 40, "boom", false, none, .err "x"⟩ "infra" "jenkins" "BuildFailed"
    false (some 300) ⟨ENV_DEV, [SERVICE_DEPLOY], GROUP_TOOLS⟩ "major" (by decide) (by decide)

/-- C1 as stated is false: a recognized rate limit pass with non-null
resource and event but an unrecognized resource key makes `send_to_alerta`
propagate a KeyError instead of returning self. -/
theorem C1_counterexample :
    ¬ ∀ (ctx : Ctx) (initiative : String) (resource event : Option String)
        (resolve : Bool) (timeout : Option Nat),
        ∃ eff, send_to_alerta ctx initiative resource event resolve timeout = .ok eff := by
  intro h
  obtain ⟨eff, heff⟩ := h ⟨true, 40, "boom", false, none, .err "x"⟩ "infra" (some "bogus")
    (some "Errors") false none
  rw [show send_to_alerta ⟨true, 40, "boom", false, none, .err "x"⟩ "infra" (some "bogus")
      (some "Errors") false none = .error (.keyErrorStr "bogus") from rfl] at heff
  cases heff

/-- C1 amended: `send_to_alerta` returns the self-reference with no
propagated exception exactly when a gate short-circuits (rate limit denied,
null resource, or null event) or both lookups succeed (recognized resource
key and a severity inside the table); in the remaining cases — reaching the
classification step with an unrecognized resource or an unmapped severity —
a lookup error propagates, and no other failure is ever propagated. -/
theorem C1_returns_self_characterization (ctx : Ctx) (initiative : String)
    (resource event : Option String) (resolve : Bool) (timeout : Option Nat) :
    (∃ eff, send_to_alerta ctx initiative resource event resolve timeout = .ok eff)
      ↔ (ctx.passedRateLimit = false ∨ resource = none ∨ event = none
          ∨ ∃ r rc sv, resource = some r
              ∧ List.lookup r MAP_RESOURCE_TO_ENV_SERVICE_AND_GROUP = some rc
              ∧ List.lookup ctx.severity SEVERITY_TO_ALERTA_FORMAT = some sv) := by
  cases hrl : ctx.passedRateLimit with
  | false =>
    constructor
    · intro _; exact Or.inl rfl
    · intro _; exact ⟨⟨[], []⟩, by simp [send_to_alerta, hrl]⟩
  | true =>
    cases resource with
    | none =>
      constructor
      · intro _; exact Or.inr (Or.inl rfl)
      · intro _
        exact ⟨⟨[(.error, "Resource must be provided. Failed to send to aggregator.")], []⟩,
          by simp [send_to_alerta, hrl]⟩
    | some r =>
      cases event with
      | none =>
        constructor
        · intro _; exact Or.inr (Or.inr (Or.inl rfl))
        · intro _
          exact ⟨⟨[(.error, "Event name must be provided. Failed to send to aggregator.")], []⟩,
            by simp [send_to_alerta, hrl]⟩
      | some ev =>
        cases hR : List.lookup r MAP_RESOURCE_TO_ENV_SERVICE_AND_GROUP with
        | none =>
          have hsend : send_to_alerta ctx initiative (some r) (some ev) resolve timeout
              = .error (.keyErrorStr r) := by
            simp [send_to_alerta, build_alert_payload, hrl, hR]
          rw [hsend]
          constructor
          · rintro ⟨eff, heff⟩; cases heff
          · rintro (h | h | h | ⟨r2, rc, sv, hr2, hrc, hsv⟩)
            · simp at h
            · exact Option.noConfusion h
            · exact Option.noConfusion h
            · obtain rfl : r2 = r := by injection hr2 with h2; exact h2.symm
              rw [hR] at hrc; cases hrc
        | some rc =>
          cases hS : List.lookup ctx.severity SEVERITY_TO_ALERTA_FORMAT with
          | none =>
            have hsend : send_to_alerta ctx initiative (some r) (some ev) resolve timeout
                = .error (.keyErrorNat ctx.severity) := by
              simp [send_to_alerta, build_alert_payload, hrl, hR, hS]
            rw [hsend]
            constructor
            · rintro ⟨eff, heff⟩; cases heff
            · rintro (h | h | h | ⟨r2, rc2, sv, hr2, hrc, hsv⟩)
              · simp at h
              · exact Option.noConfusion h
              · exact Option.noConfusion h
              · exact Option.noConfusion hsv
          | some sv =>
            constructor
            · intro _
              exact Or.inr (Or.inr (Or.inr ⟨r, rc, sv, rfl, hR, rfl⟩))
            · intro _
              exact ⟨_, send_ok_of_build_ok ctx initiative r ev resolve timeout _ hrl
                (build_alert_payload_eq ctx initiative r ev resolve timeout rc sv hR hS)⟩
